import Mathlib

/-!
Verification of the data-generation pipeline in
`data_generation/generate.py` (shallow embedding).

The script probes a pool of local inference backends, resumes from an
existing output file by counting its lines, and dispatches one generation
unit per remaining input sample over a thread pool.  Each unit either
replays a multi-turn chat conversation (chat mode) or issues a single
completion call (completion mode) and appends at most one JSON record to
the output file.

The embedding below mirrors the source:
 * `Turn`, `Sample` model the ShareGPT input records;
 * `Backend` models the OpenAI client at one base URL (the model-listing
   call, the chat-completion call and the text-completion call); request
   parameters that are forwarded opaquely to the server (`max_tokens`,
   `temperature`, the `extra_body` options) are folded into the `Backend`
   functions, which is the interface boundary the spec draws;
 * `chatLoop`, `generateChat` embed the chat-mode replay loop
   (lines 97-135), `generateCompletion` the completion mode
   (lines 138-169), and `generateData` the whole worker body
   (lines 83-169), recording which exit path was taken, whether
   `client.close()` ran, how many backend HTTP calls were issued and
   which base URL the worker picked;
 * `FileSys`, `prepareHardcodedPath`, `computeStartIdx` embed the resume
   block (lines 175-184) over a small file-system model;
 * `submissions`, `runPipeline` embed the dispatch loop (lines 190-196).

Python runtime errors that the source leaves uncaught (`ZeroDivisionError`
from `idx % len(api_base_pool)` on an empty pool, `IndexError` from
`messages[0]` on an empty sample, `KeyError` from a missing dict key) are
modelled as `Except.error` outcomes; `str.strip()` is modelled by `pyStrip`.
-/

/-- One ShareGPT message.  `speaker` is the `"from"` field; `text` and
`value` are the optional `"text"` / `"value"` payload keys (the source
reads `"text"` on system turns and `"value"` on the others; a missing key
raises `KeyError`). -/
structure Turn where
  speaker : String
  text : Option String
  value : Option String
deriving DecidableEq, Repr

/-- One input sample: the `"conversations"` field of a dataset entry. -/
structure Sample where
  conversations : List Turn
deriving DecidableEq, Repr

/-- One role-tagged message sent to the chat endpoint (the dicts the
source appends to `converted`). -/
structure CMessage where
  role : String
  content : String
deriving DecidableEq, Repr

/-- The part of a chat-completion response the source reads:
`choices[0].message.content` and `choices[0].finish_reason`. -/
structure ChatResp where
  content : String
  finishReason : String
deriving DecidableEq, Repr

/-- Outcome of one `client.chat.completions.create` call: either a
response or a raised exception (caught by the `except` at line 119). -/
inductive ChatCallResult
  | success (r : ChatResp)
  | failure
deriving DecidableEq, Repr

/-- The behaviour of the OpenAI client at one base URL.
`listModels = none` models a raised exception from `client.models.list()`;
`some ids` models `resp.data` (a list of model ids).
`completionCall = none` models a raised exception from
`client.completions.create`; `some t` models `choices[0].text`. -/
structure Backend where
  listModels : Option (List String)
  chatCall : List CMessage → ChatCallResult
  completionCall : String → Option String

/-- Uncaught Python runtime errors that can escape `generate_data`. -/
inductive PyError
  | zeroDivisionError
  | indexError
  | keyError
deriving DecidableEq, Repr

/-- A record appended to the output file: chat mode writes
`{"conversations": [...]}`, completion mode writes `{"text": ...}`. -/
inductive GenRecord
  | chatRec (conversations : List Turn)
  | textRec (text : String)
deriving DecidableEq, Repr

instance {ε α : Type} [DecidableEq ε] [DecidableEq α] :
    DecidableEq (Except ε α)
  | .error a, .error b =>
    if h : a = b then .isTrue (by rw [h])
    else .isFalse (by intro he; cases he; exact h rfl)
  | .error _, .ok _ => .isFalse (by intro he; cases he)
  | .ok _, .error _ => .isFalse (by intro he; cases he)
  | .ok a, .ok b =>
    if h : a = b then .isTrue (by rw [h])
    else .isFalse (by intro he; cases he; exact h rfl)

/-- What one worker invocation of `generate_data` did.
`result`: `.error e` means an uncaught exception escaped the worker;
`.ok none` means it returned without writing; `.ok (some r)` means it
appended exactly the record `r`.
`closed`: whether `client.close()` was invoked before the exit.
`apiCalls`: how many backend HTTP calls were issued (model-listing,
chat-completion and text-completion calls).
`base`: the base URL the worker selected (`none` when the pool is empty
and the selection itself raised). -/
structure UnitOutcome where
  result : Except PyError (Option GenRecord)
  closed : Bool
  apiCalls : Nat
  base : Option String
deriving DecidableEq, Repr

/-- Python's `str.strip()`: drop leading and trailing whitespace. -/
def pyStrip (s : String) : String :=
  String.mk
    (((s.data.dropWhile Char.isWhitespace).reverse.dropWhile
        Char.isWhitespace).reverse)

/-- Python's `xs[::2]`: the elements at even positions. -/
def everyOther : List Turn → List Turn
  | [] => []
  | [t] => [t]
  | t :: _ :: rest => t :: everyOther rest

/-- Number of `"assistant"`-role messages in a chat context.  Within one
run of the replay loop this counts how many completed assistant answers
have been fed back, so the t-th chat call of a unit sees exactly t-1 of
them. -/
def assistCount (ctx : List CMessage) : Nat :=
  (ctx.filter (fun c => c.role = "assistant")).length

/-- The chat-mode replay loop, lines 107-128 of the source:
one iteration per element of `messages[::2]`.
Returns the loop outcome together with the number of chat calls issued.
`.error e`: an uncaught `KeyError` (missing `"value"` key).
`.ok none`: the `return` at line 109 (turn in a user slot is not
`"human"`), aborting the sample with nothing written.
`.ok (some (conv, out))`: the loop finished (normally or via `break`)
with final context `conv` and accumulated output record `out`. -/
def chatLoop (B : Backend) :
    List Turn → List CMessage → List Turn →
    Except PyError (Option (List CMessage × List Turn)) × Nat
  | [], conv, out => (.ok (some (conv, out)), 0)
  | m :: rest, conv, out =>
    if m.speaker = "human" then
      match m.value with
      | none => (.error .keyError, 0)
      | some v =>
        let conv1 := conv ++ [⟨"user", v⟩]
        match B.chatCall conv1 with
        | .failure => (.ok (some (conv1, out)), 1)
        | .success r =>
          if r.finishReason = "length" then (.ok (some (conv1, out)), 1)
          else
            let ans := pyStrip r.content
            let step := chatLoop B rest (conv1 ++ [⟨"assistant", ans⟩])
                (out ++ [m, ⟨"gpt", none, some ans⟩])
            (step.1, step.2 + 1)
    else (.ok none, 0)

/-- Lines 130-134: after the loop, write `{"conversations": output_conv}`
exactly when `output_conv` is non-empty; the malformed-sample abort and
uncaught errors write nothing. -/
def finishChat :
    Except PyError (Option (List CMessage × List Turn)) →
    Except PyError (Option GenRecord)
  | .error e => .error e
  | .ok none => .ok none
  | .ok (some (_, out)) =>
    if out = [] then .ok none else .ok (some (.chatRec out))

/-- The turns seeded into the output record before the loop (lines
101-105): the leading turn when it is a system turn, else nothing. -/
def sysPrefix (msgs : List Turn) : List Turn :=
  match msgs with
  | m :: _ => if m.speaker = "system" then [m] else []
  | [] => []

/-- The turns the loop actually iterates over: the sample with its
leading system turn (if any) stripped (line 105). -/
def chatBody (msgs : List Turn) : List Turn :=
  match msgs with
  | m :: tail => if m.speaker = "system" then tail else msgs
  | [] => []

/-- Chat mode, lines 97-135: seed context and output with an optional
leading system turn, then run the replay loop and decide whether to
write.  Second component: number of chat calls issued. -/
def generateChat (B : Backend) (messages : List Turn) :
    Except PyError (Option GenRecord) × Nat :=
  match messages with
  | [] => (.ok none, 0)
  | m :: tail =>
    if m.speaker = "system" then
      match m.text with
      | none => (.error .keyError, 0)
      | some t =>
        let step := chatLoop B (everyOther tail) [⟨"system", t⟩] [m]
        (finishChat step.1, step.2)
    else
      let step := chatLoop B (everyOther (m :: tail)) [] []
      (finishChat step.1, step.2)

/-- Outcome of one mode branch of `generate_data` (before the caller adds
the model-listing call to the call count). -/
structure ModeOutcome where
  result : Except PyError (Option GenRecord)
  closed : Bool
  calls : Nat
deriving DecidableEq, Repr

/-- Lines 148-169: the single completion call, wrapped in
`try ... except ... finally: client.close()` — so `closed` is true on
both the error path and the success path.  On success the record is
`{"text": prompt + answer}` with the answer stripped (`pyStrip`). -/
def completionCallPart (B : Backend) (prompt : String) : ModeOutcome :=
  match B.completionCall prompt with
  | none => ⟨.ok none, true, 1⟩
  | some text => ⟨.ok (some (.textRec (prompt ++ pyStrip text))), true, 1⟩

/-- Completion mode, lines 138-169.  `render` stands for the external
fastchat conversation template: given the optional system message and the
first user value it yields `conv.get_prompt()`.  The prompt-building block
is not inside any `try`, so `messages[0]` on an empty list raises
`IndexError` and a missing `"text"`/`"value"` key raises `KeyError`,
both escaping the worker with the client never closed. -/
def generateCompletion (B : Backend)
    (render : Option String → String → String)
    (messages : List Turn) : ModeOutcome :=
  match messages with
  | [] => ⟨.error .indexError, false, 0⟩
  | m :: tail =>
    if m.speaker = "system" then
      match m.text with
      | none => ⟨.error .keyError, false, 0⟩
      | some sys =>
        match tail with
        | [] => ⟨.error .indexError, false, 0⟩
        | m2 :: _ =>
          match m2.value with
          | none => ⟨.error .keyError, false, 0⟩
          | some v => completionCallPart B (render (some sys) v)
    else
      match m.value with
      | none => ⟨.error .keyError, false, 0⟩
      | some v => completionCallPart B (render none v)

/-- The whole worker body `generate_data(messages, idx)`, lines 83-169.
`pool` is `api_base_pool`; on an empty pool `idx % len(api_base_pool)`
raises `ZeroDivisionError` before any network call.  The model-listing
call is guarded by its own `try` (lines 91-94): a raised exception or an
empty `data` list (IndexError from `data[0]`, also caught) makes the
worker return with nothing written and the client never closed.  `B` is
the behaviour of the backend at the selected base URL. -/
def generateData (pool : List String) (B : Backend) (chatMode : Bool)
    (render : Option String → String → String)
    (messages : List Turn) (idx : Nat) : UnitOutcome :=
  if pool.isEmpty then ⟨.error .zeroDivisionError, false, 0, none⟩
  else
    let base := pool.get? (idx % pool.length)
    match B.listModels with
    | none => ⟨.ok none, false, 1, base⟩
    | some [] => ⟨.ok none, false, 1, base⟩
    | some (_ :: _) =>
      if chatMode then
        let step := generateChat B messages
        ⟨step.1, false, 1 + step.2, base⟩
      else
        let step := generateCompletion B render messages
        ⟨step.result, step.closed, 1 + step.calls, base⟩

/-- A file-system path, as a list of components. -/
abbrev FPath := List String

/-- A small file-system model: existing files with their current line
counts, and existing directories. -/
structure FileSys where
  files : List (FPath × Nat)
  dirs : List FPath
deriving DecidableEq, Repr

def fileExists (fs : FileSys) (p : FPath) : Bool :=
  (fs.files.lookup p).isSome

def lineCount (fs : FileSys) (p : FPath) : Nat :=
  (fs.files.lookup p).getD 0

def dirExists (fs : FileSys) (p : FPath) : Bool :=
  p.isEmpty || fs.dirs.contains p

/-- All ancestor directories of the parent of `p` (what
`Path(p).parent.mkdir(parents=True, exist_ok=True)` creates). -/
def ancestorDirs (p : FPath) : List FPath :=
  (List.range p.dropLast.length).map (fun k => p.dropLast.take (k + 1))

/-- `Path(p).parent.mkdir(parents=True, exist_ok=True)`. -/
def mkdirParents (fs : FileSys) (p : FPath) : FileSys :=
  { fs with dirs := fs.dirs ++ ancestorDirs p }

/-- `Path(p).touch()`: create an empty file when none exists. -/
def touch (fs : FileSys) (p : FPath) : FileSys :=
  if fileExists fs p then fs else { fs with files := (p, 0) :: fs.files }

/-- The absolute path hard-coded at line 176 of the source. -/
def hardcodedOutputPath : FPath :=
  ["home", "nxclab", "wonjun", "Medusa", "ShareGPT_Vicuna_unfiltered",
   "train_shareGPT_llama3.2_1B.jsonl"]

/-- Lines 176-179: if the hard-coded path does not exist, create its
parent directories and touch it.  Note this block acts on the hard-coded
path, not on `args.output_path`. -/
def prepareHardcodedPath (fs : FileSys) : FileSys :=
  if fileExists fs hardcodedOutputPath then fs
  else touch (mkdirParents fs hardcodedOutputPath) hardcodedOutputPath

/-- Lines 175 and 181-184: `start_idx` is the line count of
`args.output_path` when that file exists, else 0. -/
def computeStartIdx (fs : FileSys) (outputPath : FPath) : Nat :=
  if fileExists fs outputPath then lineCount fs outputPath else 0

/-- Whether `open(p, "a")` succeeds: the file already exists, or its
parent directory does (append mode creates the file but not directories). -/
def canOpenAppend (fs : FileSys) (p : FPath) : Bool :=
  fileExists fs p || dirExists fs p.dropLast

/-- Lines 190-194: the work units submitted to the executor, in order —
one per sample of `data[start_idx:]`, paired with the index `i + start_idx`
passed to `generate_data`. -/
def submissions (data : List Sample) (startIdx : Nat) :
    List (Sample × Nat) :=
  (data.drop startIdx).enum.map (fun p => (p.2, p.1 + startIdx))

/-- Lines 190-196: run every submitted unit and collect the outcomes,
together with the process exit code.  The `for _ in tqdm(as_completed
(futures)): pass` loop never calls `future.result()`, so exceptions
raised inside workers are dropped and the script always falls off the end
normally: the exit code is 0 on every path that reaches dispatch. -/
def runPipeline (pool : List String) (B : Backend) (chatMode : Bool)
    (render : Option String → String → String)
    (data : List Sample) (startIdx : Nat) : List UnitOutcome × Nat :=
  ((submissions data startIdx).map
    (fun p => generateData pool B chatMode render p.1.conversations p.2), 0)

/-- The context messages seeded before the loop (lines 101-105): the
system message when the leading turn is a system turn.  (`getD ""` is
only reached under the hypotheses used below, which guarantee the
`"text"` key is present.) -/
def sysCtx (msgs : List Turn) : List CMessage :=
  match msgs with
  | m :: _ => if m.speaker = "system" then [⟨"system", m.text.getD ""⟩] else []
  | [] => []

/-- The user/assistant pairs the loop appends to the output record: each
completed user turn followed by the synthesized `"gpt"` turn carrying the
corresponding stripped answer. -/
def pairsOut : List Turn → List String → List Turn
  | m :: ms, a :: bs => m :: ⟨"gpt", none, some a⟩ :: pairsOut ms bs
  | _, _ => []

/-- The system turn of the end-to-end example of the spec. -/
def sysTurn : Turn := ⟨"system", some "be terse", none⟩

/-- The user turn of the end-to-end example of the spec. -/
def userTurn : Turn := ⟨"human", none, some "2+2?"⟩

/-- The trailing `{assistant, null}` turn of the end-to-end example
(ShareGPT tags the assistant as `"gpt"`); it is never read by the code. -/
def asstTurn : Turn := ⟨"gpt", none, none⟩

/-- A live backend whose chat endpoint always answers `"4"` with finish
reason `"stop"` — the stub of the end-to-end example. -/
def stubBackend : Backend :=
  ⟨some ["m"], fun _ => .success ⟨"4", "stop"⟩, fun _ => none⟩

/-- A live backend whose generation calls always raise. -/
def errBackend : Backend :=
  ⟨some ["m"], fun _ => .failure, fun _ => none⟩

/-- A live backend whose chat endpoint always answers `"ok"` with finish
reason `"stop"`. -/
def okBackend : Backend :=
  ⟨some ["m"], fun _ => .success ⟨"ok", "stop"⟩, fun _ => none⟩

/-- A live backend that answers `"ans"` and reports finish reason
`"length"` exactly on the call whose context already carries `k`
completed assistant answers (i.e. it truncates user turn `k + 1`). -/
def truncBackend (k : Nat) : Backend :=
  ⟨some ["m"],
   fun ctx => .success ⟨"ans", if assistCount ctx = k then "length" else "stop"⟩,
   fun _ => none⟩

/-- A trivial stand-in for the external fastchat template renderer. -/
def idRender : Option String → String → String := fun _ v => v

/-- A file system with no files and no directories. -/
def emptyFS : FileSys := ⟨[], []⟩

/-- C9: end-to-end chat example.  For the input sample
`[{system,"be terse"},{user,"2+2?"},{assistant,null}]` in chat mode, with
a live backend whose stub returns text `"4"` and finish reason `"stop"`,
the worker appends exactly the record
`{"conversations":[{system,"be terse"},{user,"2+2?"},{gpt,"4"}]}`
(and makes two backend calls: the model listing and one chat call; the
trailing null assistant turn of the input is never read). -/
theorem c9_end_to_end_example :
    generateData ["http://localhost:8000/v1"] stubBackend true idRender
        [sysTurn, userTurn, asstTurn] 0
      = ⟨.ok (some (.chatRec [sysTurn, userTurn, ⟨"gpt", none, some "4"⟩])),
         false, 2, some "http://localhost:8000/v1"⟩ := by decide

/-- C3 (code bug): the code does not fail fast on an empty live-backend
pool.  With `api_base_pool = []` the script still dispatches every
remaining sample; each worker raises `ZeroDivisionError` at
`idx % len(api_base_pool)`, the `for _ in as_completed(futures): pass`
loop never calls `future.result()` so the exception is dropped, and the
process falls off the end with exit code 0 — instead of the fatal
diagnostic and non-zero exit the claim requires. -/
theorem c3_empty_pool_dispatches_and_exit_zero :
    runPipeline [] stubBackend true idRender [⟨[userTurn]⟩] 0
      = ([⟨.error .zeroDivisionError, false, 0, none⟩], 0) := by decide

/-- C7 (code bug): the path-preparation block (lines 176-179) creates the
hard-coded developer path, not the configured output path.  Starting from
an empty file system with output path `outdir/gen.jsonl`: the run does
start at offset 0, but `/home/nxclab/.../train_shareGPT_llama3.2_1B.jsonl`
is what gets created; the configured output path and its parent directory
do not exist afterwards, so the first worker append
(`open(args.output_path, "a")`) would raise `FileNotFoundError`. -/
theorem c7_hardcoded_path_prepared_not_output :
    computeStartIdx (prepareHardcodedPath emptyFS) ["outdir", "gen.jsonl"] = 0 ∧
    fileExists (prepareHardcodedPath emptyFS) hardcodedOutputPath = true ∧
    fileExists (prepareHardcodedPath emptyFS) ["outdir", "gen.jsonl"] = false ∧
    dirExists (prepareHardcodedPath emptyFS) ["outdir"] = false ∧
    canOpenAppend (prepareHardcodedPath emptyFS) ["outdir", "gen.jsonl"] = false := by
  decide

/-- C6 counterexample: a sample with a leading system turn whose very
first chat call raises produces ONE output line, not zero: the loop
breaks, `output_conv` still holds the seeded system turn, so
`{"conversations":[system]}` is written.  This refutes the claim that
every sample whose first backend call fails yields zero output lines. -/
theorem c6_system_prefix_written_cex :
    (generateChat errBackend [sysTurn, userTurn]).1
        = .ok (some (.chatRec [sysTurn])) ∧
    (generateChat errBackend [sysTurn, userTurn]).1 ≠ .ok none := by decide

/-- C8 counterexample: a successful chat-mode unit returns without ever
calling `client.close()` — a (success) exit path that does not release
the per-task client, refuting the claim that every exit path does.  Only
completion mode wraps its request in `try/finally: client.close()`. -/
theorem c8_chat_no_close_cex :
    (generateData ["b"] stubBackend true idRender
        [⟨"human", none, some "q"⟩] 0).result
      = .ok (some (.chatRec [⟨"human", none, some "q"⟩,
          ⟨"gpt", none, some "4"⟩])) ∧
    (generateData ["b"] stubBackend true idRender
        [⟨"human", none, some "q"⟩] 0).closed = false := by decide

/-- C10 counterexample: on an empty sample in completion mode the worker
does fail with an out-of-bounds access (`messages[0]` at line 140), but
NOT before any backend call: the model-listing call
(`client.models.list()`, line 92) has already been issued — the unit's
backend-call count at the failure is 1, not 0. -/
theorem c10_backend_call_precedes_cex :
    (generateData ["b"] stubBackend false idRender [] 0).result
        = .error .indexError ∧
    (generateData ["b"] stubBackend false idRender [] 0).apiCalls ≠ 0 := by
  decide

/-- C1: resume planning.  If the configured output path exists, the
starting offset computed after the path-preparation block equals the
line count of the existing output file; the submitted work units are
exactly the samples from that offset to the end of the input collection
(in order); and when the existing output already has one line per input
sample (a completed run), the new run submits no work at all. -/
theorem c1_resume_offset_and_range (fs : FileSys) (outPath : FPath)
    (data : List Sample) (hex : fileExists fs outPath = true) :
    computeStartIdx (prepareHardcodedPath fs) outPath = lineCount fs outPath ∧
    (submissions data (lineCount fs outPath)).map Prod.fst
      = data.drop (lineCount fs outPath) ∧
    (lineCount fs outPath = data.length →
      submissions data (lineCount fs outPath) = []) := by
  refine ⟨?_, ?_, ?_⟩
  · unfold prepareHardcodedPath
    cases hh : fileExists fs hardcodedOutputPath with
    | true => simp [computeStartIdx, hex]
    | false =>
      have hne : outPath ≠ hardcodedOutputPath := by
        intro he
        rw [he, hh] at hex
        exact Bool.false_ne_true hex
      have hmk : fileExists (mkdirParents fs hardcodedOutputPath)
          hardcodedOutputPath = false := by
        simpa [fileExists, mkdirParents] using hh
      simp only [Bool.false_eq_true, if_false]
      unfold touch
      rw [hmk]
      simp only [Bool.false_eq_true, if_false]
      unfold computeStartIdx fileExists lineCount mkdirParents
      unfold fileExists at hex
      rw [show (List.lookup outPath (⟨hardcodedOutputPath, 0⟩ :: fs.files))
            = List.lookup outPath fs.files from by
        simp [List.lookup, beq_eq_false_iff_ne.mpr hne]]
      simp [hex]
  · rw [submissions, List.map_map]
    have : (Prod.fst ∘ fun p : Nat × Sample => (p.2, p.1 + lineCount fs outPath))
        = Prod.snd := by
      funext p
      rfl
    rw [this, List.enum_map_snd]
  · intro hlen
    simp [submissions, hlen, List.drop_length]

/-- Witness for C1 at a concrete input: a file system whose output file
`o` holds 2 lines and an input collection of 3 samples. -/
theorem c1_resume_witness :
    fileExists ⟨[(["o"], 2)], []⟩ ["o"] = true ∧
    (computeStartIdx (prepareHardcodedPath ⟨[(["o"], 2)], []⟩) ["o"]
        = lineCount ⟨[(["o"], 2)], []⟩ ["o"] ∧
      (submissions [⟨[]⟩, ⟨[]⟩, ⟨[]⟩]
          (lineCount ⟨[(["o"], 2)], []⟩ ["o"])).map Prod.fst
        = ([⟨[]⟩, ⟨[]⟩, ⟨[]⟩] : List Sample).drop
            (lineCount ⟨[(["o"], 2)], []⟩ ["o"]) ∧
      (lineCount ⟨[(["o"], 2)], []⟩ ["o"]
          = ([⟨[]⟩, ⟨[]⟩, ⟨[]⟩] : List Sample).length →
        submissions [⟨[]⟩, ⟨[]⟩, ⟨[]⟩]
          (lineCount ⟨[(["o"], 2)], []⟩ ["o"]) = [])) :=
  ⟨by decide, c1_resume_offset_and_range ⟨[(["o"], 2)], []⟩ ["o"]
    [⟨[]⟩, ⟨[]⟩, ⟨[]⟩] (by decide)⟩

/-- C2: backend assignment.  The j-th submitted unit carries the absolute
index `startIdx + j`, and the base URL a worker selects for index `idx`
is `pool[idx % len(pool)]` — a pure function of the absolute index and
the pool, independent of the backend behaviour, the mode, the renderer
and the sample content (hence of completion or arrival order), so reruns
with the same resume offset and pool ordering assign identically. -/
theorem c2_backend_assignment (pool : List String) (hpool : pool ≠ [])
    (data : List Sample) (startIdx j : Nat) (s : Sample) (idx : Nat)
    (hj : (submissions data startIdx)[j]? = some (s, idx)) :
    idx = startIdx + j ∧
    ∀ (B : Backend) (chatMode : Bool)
      (render : Option String → String → String) (msgs : List Turn),
      (generateData pool B chatMode render msgs idx).base
        = pool.get? ((startIdx + j) % pool.length) := by
  have hidx : idx = startIdx + j := by
    rw [submissions, List.getElem?_map, List.getElem?_enum] at hj
    cases hd : (data.drop startIdx)[j]? with
    | none => rw [hd] at hj; simp at hj
    | some a =>
      rw [hd] at hj
      simp [Prod.ext_iff] at hj
      omega
  refine ⟨hidx, ?_⟩
  intro B chatMode render msgs
  rw [hidx]
  unfold generateData
  rw [if_neg (by simp [List.isEmpty_iff, hpool])]
  cases B.listModels with
  | none => rfl
  | some l =>
    cases l with
    | nil => rfl
    | cons m ms =>
      cases chatMode <;> rfl

/-- Witness for C2 at a concrete input: pool of two bases, resume offset
1, position 1 in the remaining sequence — absolute index 2, assigned
`pool[2 % 2] = pool[0]`. -/
theorem c2_assignment_witness :
    (["a", "b"] : List String) ≠ [] ∧
    (submissions [⟨[]⟩, ⟨[]⟩, ⟨[]⟩] 1)[1]? = some (⟨[]⟩, 2) ∧
    (2 = 1 + 1 ∧
      ∀ (B : Backend) (chatMode : Bool)
        (render : Option String → String → String) (msgs : List Turn),
        (generateData ["a", "b"] B chatMode render msgs 2).base
          = (["a", "b"] : List String).get?
              ((1 + 1) % (["a", "b"] : List String).length)) :=
  ⟨by decide, by decide,
    c2_backend_assignment ["a", "b"] (by decide) [⟨[]⟩, ⟨[]⟩, ⟨[]⟩] 1 1 ⟨[]⟩ 2
      (by decide)⟩

lemma assistCount_append_user (ctx : List CMessage) (v : String) :
    assistCount (ctx ++ [⟨"user", v⟩]) = assistCount ctx := by
  simp [assistCount, List.filter_append]

lemma assistCount_append_assistant (ctx : List CMessage) (a : String) :
    assistCount (ctx ++ [⟨"assistant", a⟩]) = assistCount ctx + 1 := by
  simp [assistCount, List.filter_append]

lemma assistCount_sysCtx (msgs : List Turn) : assistCount (sysCtx msgs) = 0 := by
  unfold sysCtx
  cases msgs with
  | nil => rfl
  | cons m tail =>
    by_cases hs : m.speaker = "system" <;> simp [hs, assistCount]

/-- When the leading system turn (if any) carries its `"text"` key,
`generateChat` is the replay loop started from the system-seeded context
and output record, finished by the write-iff-nonempty rule. -/
lemma generateChat_eq (B : Backend) (msgs : List Turn)
    (hsys : ∀ m, msgs.head? = some m → m.speaker = "system" →
      m.text.isSome = true) :
    generateChat B msgs =
      (finishChat (chatLoop B (everyOther (chatBody msgs)) (sysCtx msgs)
          (sysPrefix msgs)).1,
       (chatLoop B (everyOther (chatBody msgs)) (sysCtx msgs)
          (sysPrefix msgs)).2) := by
  cases msgs with
  | nil => simp [generateChat, chatBody, sysCtx, sysPrefix, everyOther,
      chatLoop, finishChat]
  | cons m tail =>
    by_cases hs : m.speaker = "system"
    · have hts : m.text.isSome = true := hsys m rfl hs
      obtain ⟨t, ht⟩ := Option.isSome_iff_exists.mp hts
      simp [generateChat, chatBody, sysCtx, sysPrefix, hs, ht]
    · simp [generateChat, chatBody, sysCtx, sysPrefix, hs]

/-- If the turn in user slot `j` is not a `"human"` turn while the `j`
earlier user slots are well-formed and their calls all succeed without
truncation, the replay loop hits the `return` at line 109 after exactly
`j` calls: the whole sample is abandoned with nothing written. -/
lemma chatLoop_abort (B : Backend)
    (hB : ∀ ctx, ∃ r, B.chatCall ctx = .success r ∧ r.finishReason ≠ "length") :
    ∀ (j : Nat) (slots : List Turn) (conv : List CMessage) (out : List Turn)
      (mj : Turn), slots[j]? = some mj → mj.speaker ≠ "human" →
    (∀ m ∈ slots.take j, m.speaker = "human" ∧ m.value.isSome = true) →
    chatLoop B slots conv out = (.ok none, j) := by
  intro j
  induction j with
  | zero =>
    intro slots conv out mj hj hmj hpre
    cases slots with
    | nil => simp at hj
    | cons m rest =>
      simp at hj
      subst hj
      simp [chatLoop, hmj]
  | succ n ih =>
    intro slots conv out mj hj hmj hpre
    cases slots with
    | nil => simp at hj
    | cons m rest =>
      have hm : m.speaker = "human" ∧ m.value.isSome = true := by
        apply hpre
        simp [List.take_succ_cons]
      obtain ⟨v, hv⟩ := Option.isSome_iff_exists.mp hm.2
      obtain ⟨r, hr, hlen⟩ := hB (conv ++ [⟨"user", v⟩])
      have hrest : rest[n]? = some mj := by simpa using hj
      have hpre2 : ∀ x ∈ rest.take n,
          x.speaker = "human" ∧ x.value.isSome = true := by
        intro x hx
        apply hpre
        simp [List.take_succ_cons, hx]
      have hstep := ih rest (conv ++ [⟨"user", v⟩] ++
          [⟨"assistant", pyStrip r.content⟩])
          (out ++ [m, ⟨"gpt", none, some (pyStrip r.content)⟩]) mj hrest hmj hpre2
      simp only [chatLoop, hm.1, if_true, hv, hr, if_neg hlen, hstep]

/-- C5: malformed-sample handling in chat mode.  If the turn in user slot
`j` is not a `"human"` turn, and the `j` earlier user slots are
well-formed with all their calls succeeding (so earlier turns of the
sample completed), the replayer aborts the whole sample: `generateChat`
returns no record (`.ok none` — nothing written, despite the non-empty
accumulated output) and no error escapes to the dispatcher; exactly `j`
chat calls were made before the abort. -/
theorem c5_malformed_abort (B : Backend) (msgs : List Turn) (j : Nat) (mj : Turn)
    (hsys : ∀ m, msgs.head? = some m → m.speaker = "system" →
      m.text.isSome = true)
    (hj : (everyOther (chatBody msgs))[j]? = some mj)
    (hmj : mj.speaker ≠ "human")
    (hpre : ∀ m ∈ (everyOther (chatBody msgs)).take j,
      m.speaker = "human" ∧ m.value.isSome = true)
    (hB : ∀ ctx, ∃ r, B.chatCall ctx = .success r ∧ r.finishReason ≠ "length") :
    (generateChat B msgs).1 = .ok none ∧ (generateChat B msgs).2 = j := by
  have habort := chatLoop_abort B hB j (everyOther (chatBody msgs))
    (sysCtx msgs) (sysPrefix msgs) mj hj hmj hpre
  rw [generateChat_eq B msgs hsys]
  simp [habort, finishChat]

/-- Witness for C5 at a concrete input: the first user slot is fine, the
second user slot holds a `"gpt"` turn; with an always-succeeding backend
the sample is abandoned after 1 call and nothing is written. -/
theorem c5_malformed_witness :
    (∀ m, ([⟨"human", none, some "a"⟩, ⟨"gpt", none, some "x"⟩,
        ⟨"gpt", none, some "bad"⟩] : List Turn).head? = some m →
      m.speaker = "system" → m.text.isSome = true) ∧
    (everyOther (chatBody [⟨"human", none, some "a"⟩, ⟨"gpt", none, some "x"⟩,
        ⟨"gpt", none, some "bad"⟩]))[1]? = some ⟨"gpt", none, some "bad"⟩ ∧
    (⟨"gpt", none, some "bad"⟩ : Turn).speaker ≠ "human" ∧
    (∀ m ∈ (everyOther (chatBody [⟨"human", none, some "a"⟩,
        ⟨"gpt", none, some "x"⟩, ⟨"gpt", none, some "bad"⟩])).take 1,
      m.speaker = "human" ∧ m.value.isSome = true) ∧
    (∀ ctx, ∃ r, okBackend.chatCall ctx = .success r ∧
      r.finishReason ≠ "length") ∧
    ((generateChat okBackend [⟨"human", none, some "a"⟩,
        ⟨"gpt", none, some "x"⟩, ⟨"gpt", none, some "bad"⟩]).1 = .ok none ∧
      (generateChat okBackend [⟨"human", none, some "a"⟩,
        ⟨"gpt", none, some "x"⟩, ⟨"gpt", none, some "bad"⟩]).2 = 1) :=
  ⟨by decide, by decide, by decide, by decide,
    fun ctx => ⟨⟨"ok", "stop"⟩, rfl, by decide⟩,
    c5_malformed_abort okBackend _ 1 ⟨"gpt", none, some "bad"⟩ (by decide)
      (by decide) (by decide) (by decide)
      (fun ctx => ⟨⟨"ok", "stop"⟩, rfl, by decide⟩)⟩

/-- If the backend reports finish reason `"length"` exactly on the call
whose context carries `K` completed assistant answers, then starting the
loop with `K - n` answers already in context, the next `n` calls succeed,
call `n + 1` is truncated, the loop breaks there, and the output record
has grown by exactly the `n` completed user/assistant pairs — the
truncated answer enters neither the record nor the context
(`assistCount conv1 = K`, not `K + 1`). -/
lemma chatLoop_truncates (B : Backend) (K : Nat)
    (hB : ∀ ctx, ∃ r, B.chatCall ctx = .success r ∧
      (r.finishReason = "length" ↔ assistCount ctx = K)) :
    ∀ (n : Nat) (slots : List Turn) (conv : List CMessage) (out : List Turn),
    n + 1 ≤ slots.length →
    (∀ m ∈ slots.take (n + 1), m.speaker = "human" ∧ m.value.isSome = true) →
    assistCount conv + n = K →
    ∃ (ans : List String) (conv1 : List CMessage),
      ans.length = n ∧
      chatLoop B slots conv out
        = (.ok (some (conv1, out ++ pairsOut (slots.take n) ans)), n + 1) ∧
      assistCount conv1 = K := by
  intro n
  induction n with
  | zero =>
    intro slots conv out hlen hpre hcnt
    cases slots with
    | nil => simp at hlen
    | cons m rest =>
      have hm : m.speaker = "human" ∧ m.value.isSome = true := by
        apply hpre
        simp [List.take_succ_cons]
      obtain ⟨v, hv⟩ := Option.isSome_iff_exists.mp hm.2
      obtain ⟨r, hr, hiff⟩ := hB (conv ++ [⟨"user", v⟩])
      have hcnt1 : assistCount (conv ++ [⟨"user", v⟩]) = K := by
        rw [assistCount_append_user]
        omega
      have hlenr : r.finishReason = "length" := hiff.mpr hcnt1
      refine ⟨[], conv ++ [⟨"user", v⟩], rfl, ?_, hcnt1⟩
      simp only [chatLoop, hm.1, if_true, hv, hr, hlenr, if_true, if_pos]
      simp [pairsOut]
  | succ n ih =>
    intro slots conv out hlen hpre hcnt
    cases slots with
    | nil => simp at hlen
    | cons m rest =>
      have hm : m.speaker = "human" ∧ m.value.isSome = true := by
        apply hpre
        simp [List.take_succ_cons]
      obtain ⟨v, hv⟩ := Option.isSome_iff_exists.mp hm.2
      obtain ⟨r, hr, hiff⟩ := hB (conv ++ [⟨"user", v⟩])
      have hcnt1 : assistCount (conv ++ [⟨"user", v⟩]) + (n + 1) = K := by
        rw [assistCount_append_user]
        omega
      have hnl : ¬ r.finishReason = "length" := by
        intro hl
        have := hiff.mp hl
        omega
      have hcnt2 : assistCount (conv ++ [⟨"user", v⟩] ++
          [⟨"assistant", pyStrip r.content⟩]) + n = K := by
        rw [assistCount_append_assistant]
        omega
      have hlen2 : n + 1 ≤ rest.length := by
        simp at hlen
        omega
      have hpre2 : ∀ x ∈ rest.take (n + 1),
          x.speaker = "human" ∧ x.value.isSome = true := by
        intro x hx
        apply hpre
        simp [List.take_succ_cons, hx]
      obtain ⟨ans, conv1, hansl, hloop, hconv1⟩ := ih rest
        (conv ++ [⟨"user", v⟩] ++ [⟨"assistant", pyStrip r.content⟩])
        (out ++ [m, ⟨"gpt", none, some (pyStrip r.content)⟩]) hlen2 hpre2 hcnt2
      refine ⟨pyStrip r.content :: ans, conv1, by simp [hansl], ?_, hconv1⟩
      simp only [chatLoop, hm.1, if_true, hv, hr, if_neg hnl, hloop]
      simp [List.take_succ_cons, pairsOut]

/-- C4: chat-mode truncation.  For a sample whose first `k` user slots
are well-formed and a backend that returns a length-truncated response on
user turn `k` after `k - 1` successful turns (a backend whose call sees
`k - 1` assistant answers in context is truncated, earlier calls are
not), the replay loop stops at turn `k` (exactly `k` calls); the
accumulated record is exactly the leading system turn (when present)
followed by the first `k - 1` completed user/assistant pairs; the
truncated response is appended neither to the record (which holds only
the `k - 1` pairs) nor to the context (`assistCount conv1 = k - 1`); and
the worker writes that record iff it is non-empty. -/
theorem c4_chat_truncation (B : Backend) (msgs : List Turn) (k : Nat)
    (hsys : ∀ m, msgs.head? = some m → m.speaker = "system" →
      m.text.isSome = true)
    (hk1 : 1 ≤ k) (hk2 : k ≤ (everyOther (chatBody msgs)).length)
    (hpre : ∀ m ∈ (everyOther (chatBody msgs)).take k,
      m.speaker = "human" ∧ m.value.isSome = true)
    (hB : ∀ ctx, ∃ r, B.chatCall ctx = .success r ∧
      (r.finishReason = "length" ↔ assistCount ctx = k - 1)) :
    ∃ (ans : List String) (conv1 : List CMessage),
      ans.length = k - 1 ∧
      chatLoop B (everyOther (chatBody msgs)) (sysCtx msgs) (sysPrefix msgs)
        = (.ok (some (conv1, sysPrefix msgs ++
            pairsOut ((everyOther (chatBody msgs)).take (k - 1)) ans)), k) ∧
      assistCount conv1 = k - 1 ∧
      (generateChat B msgs).1 =
        (if sysPrefix msgs ++
            pairsOut ((everyOther (chatBody msgs)).take (k - 1)) ans = []
         then .ok none
         else .ok (some (.chatRec (sysPrefix msgs ++
            pairsOut ((everyOther (chatBody msgs)).take (k - 1)) ans)))) ∧
      (generateChat B msgs).2 = k := by
  obtain ⟨n, rfl⟩ : ∃ n, k = n + 1 := ⟨k - 1, by omega⟩
  simp only [Nat.add_sub_cancel] at hB ⊢
  have hcnt : assistCount (sysCtx msgs) + n = n := by
    rw [assistCount_sysCtx]
    omega
  obtain ⟨ans, conv1, hansl, hloop, hconv1⟩ :=
    chatLoop_truncates B n hB n (everyOther (chatBody msgs))
      (sysCtx msgs) (sysPrefix msgs) hk2 hpre hcnt
  refine ⟨ans, conv1, hansl, hloop, hconv1, ?_, ?_⟩
  · rw [generateChat_eq B msgs hsys]
    simp only [hloop]
    simp [finishChat]
  · rw [generateChat_eq B msgs hsys]
    simp only [hloop]

/-- Witness for C4 at a concrete input: two user slots, truncation on
user turn 2 after 1 successful turn (`truncBackend 1` reports `"length"`
exactly when one assistant answer is already in context). -/
theorem c4_truncation_witness :
    (∀ m, ([⟨"human", none, some "a"⟩, ⟨"gpt", none, some "x"⟩,
        ⟨"human", none, some "b"⟩] : List Turn).head? = some m →
      m.speaker = "system" → m.text.isSome = true) ∧
    1 ≤ 2 ∧
    2 ≤ (everyOther (chatBody [⟨"human", none, some "a"⟩,
        ⟨"gpt", none, some "x"⟩, ⟨"human", none, some "b"⟩])).length ∧
    (∀ m ∈ (everyOther (chatBody [⟨"human", none, some "a"⟩,
        ⟨"gpt", none, some "x"⟩, ⟨"human", none, some "b"⟩])).take 2,
      m.speaker = "human" ∧ m.value.isSome = true) ∧
    (∀ ctx, ∃ r, (truncBackend 1).chatCall ctx = .success r ∧
      (r.finishReason = "length" ↔ assistCount ctx = 2 - 1)) ∧
    (∃ (ans : List String) (conv1 : List CMessage),
      ans.length = 2 - 1 ∧
      chatLoop (truncBackend 1)
          (everyOther (chatBody [⟨"human", none, some "a"⟩,
            ⟨"gpt", none, some "x"⟩, ⟨"human", none, some "b"⟩]))
          (sysCtx [⟨"human", none, some "a"⟩, ⟨"gpt", none, some "x"⟩,
            ⟨"human", none, some "b"⟩])
          (sysPrefix [⟨"human", none, some "a"⟩, ⟨"gpt", none, some "x"⟩,
            ⟨"human", none, some "b"⟩])
        = (.ok (some (conv1,
            sysPrefix [⟨"human", none, some "a"⟩, ⟨"gpt", none, some "x"⟩,
              ⟨"human", none, some "b"⟩] ++
            pairsOut ((everyOther (chatBody [⟨"human", none, some "a"⟩,
              ⟨"gpt", none, some "x"⟩, ⟨"human", none, some "b"⟩])).take (2 - 1))
              ans)), 2) ∧
      assistCount conv1 = 2 - 1 ∧
      (generateChat (truncBackend 1) [⟨"human", none, some "a"⟩,
          ⟨"gpt", none, some "x"⟩, ⟨"human", none, some "b"⟩]).1 =
        (if sysPrefix [⟨"human", none, some "a"⟩, ⟨"gpt", none, some "x"⟩,
              ⟨"human", none, some "b"⟩] ++
            pairsOut ((everyOther (chatBody [⟨"human", none, some "a"⟩,
              ⟨"gpt", none, some "x"⟩, ⟨"human", none, some "b"⟩])).take (2 - 1))
              ans = []
         then .ok none
         else .ok (some (.chatRec (sysPrefix [⟨"human", none, some "a"⟩,
            ⟨"gpt", none, some "x"⟩, ⟨"human", none, some "b"⟩] ++
            pairsOut ((everyOther (chatBody [⟨"human", none, some "a"⟩,
              ⟨"gpt", none, some "x"⟩, ⟨"human", none, some "b"⟩])).take (2 - 1))
              ans)))) ∧
      (generateChat (truncBackend 1) [⟨"human", none, some "a"⟩,
          ⟨"gpt", none, some "x"⟩, ⟨"human", none, some "b"⟩]).2 = 2) :=
  ⟨by decide, by decide, by decide, by decide,
    fun ctx => ⟨⟨"ans", if assistCount ctx = 1 then "length" else "stop"⟩, rfl,
      by by_cases h : assistCount ctx = 1 <;> simp [h]⟩,
    c4_chat_truncation (truncBackend 1) [⟨"human", none, some "a"⟩,
        ⟨"gpt", none, some "x"⟩, ⟨"human", none, some "b"⟩] 2
      (by decide) (by decide) (by decide) (by decide)
      (fun ctx => ⟨⟨"ans", if assistCount ctx = 1 then "length" else "stop"⟩, rfl,
        by by_cases h : assistCount ctx = 1 <;> simp [h]⟩)⟩

/-- C6 amended: for a sample WITHOUT a leading system turn whose very
first chat call fails, no record is ever written (the result is never
`.ok (some r)`); and on every path where the replay loop itself ends, a
record is written iff the accumulated output record is non-empty.  (The
original claim is refuted by `c6_system_prefix_written_cex`: with a
leading system turn the accumulated record `[system]` is non-empty and
IS written even though the first call failed.) -/
theorem c6_empty_suppression_amended (B : Backend) (msgs : List Turn)
    (hnosys : sysPrefix msgs = [])
    (hfail : ∀ ctx, assistCount ctx = 0 → B.chatCall ctx = .failure) :
    (∀ r : GenRecord, (generateChat B msgs).1 ≠ .ok (some r)) ∧
    (∀ (conv : List CMessage) (out : List Turn),
      finishChat (.ok (some (conv, out))) = .ok none ↔ out = []) := by
  constructor
  · intro r
    cases msgs with
    | nil => simp [generateChat]
    | cons m tail =>
      by_cases hs : m.speaker = "system"
      · simp [sysPrefix, hs] at hnosys
      · obtain ⟨rest2, hslots⟩ : ∃ rest2, everyOther (m :: tail) = m :: rest2 := by
          cases tail with
          | nil => exact ⟨[], rfl⟩
          | cons m2 rest => exact ⟨everyOther rest, rfl⟩
        simp only [generateChat, hs, if_false, hslots]
        by_cases hh : m.speaker = "human"
        · cases hv : m.value with
          | none => simp [chatLoop, hh, hv, finishChat]
          | some v =>
            have hc : B.chatCall [⟨"user", v⟩] = .failure := by
              apply hfail
              simp [assistCount]
            simp [chatLoop, hh, hv, hc, finishChat]
        · simp [chatLoop, hh, finishChat]
  · intro conv out
    by_cases ho : out = [] <;> simp [finishChat, ho]

/-- Witness for C6 (amended) at a concrete input: a single user turn and
a backend whose calls all raise — nothing is written. -/
theorem c6_amended_witness :
    sysPrefix [⟨"human", none, some "u"⟩] = [] ∧
    (∀ ctx, assistCount ctx = 0 → errBackend.chatCall ctx = .failure) ∧
    ((∀ r : GenRecord,
        (generateChat errBackend [⟨"human", none, some "u"⟩]).1
          ≠ .ok (some r)) ∧
      (∀ (conv : List CMessage) (out : List Turn),
        finishChat (.ok (some (conv, out)))
          = .ok none ↔ out = [])) :=
  ⟨by decide, fun _ _ => rfl,
    c6_empty_suppression_amended errBackend [⟨"human", none, some "u"⟩]
      (by decide) (fun _ _ => rfl)⟩

/-- C10 amended: on an empty sample (with a non-empty pool and a backend
whose model listing succeeds non-empty), chat mode returns without
writing and without error after only the model-listing call, while
completion mode raises `IndexError` at `messages[0]` — after the
model-listing call (apiCalls = 1) but before any completion call would
have been issued. -/
theorem c10_empty_sample_amended (pool : List String) (B : Backend)
    (render : Option String → String → String) (idx : Nat)
    (m : String) (ms : List String)
    (hpool : pool ≠ []) (hlist : B.listModels = some (m :: ms)) :
    generateData pool B true render [] idx
      = ⟨.ok none, false, 1, pool.get? (idx % pool.length)⟩ ∧
    generateData pool B false render [] idx
      = ⟨.error .indexError, false, 1, pool.get? (idx % pool.length)⟩ := by
  constructor <;>
    · unfold generateData
      rw [if_neg (by simp [List.isEmpty_iff, hpool]), hlist]
      rfl

/-- Witness for C10 (amended) at a concrete input. -/
theorem c10_amended_witness :
    (["b"] : List String) ≠ [] ∧
    stubBackend.listModels = some ["m"] ∧
    (generateData ["b"] stubBackend true idRender [] 0
        = ⟨.ok none, false, 1,
            (["b"] : List String).get? (0 % (["b"] : List String).length)⟩ ∧
      generateData ["b"] stubBackend false idRender [] 0
        = ⟨.error .indexError, false, 1,
            (["b"] : List String).get? (0 % (["b"] : List String).length)⟩) :=
  ⟨by decide, rfl,
    c10_empty_sample_amended ["b"] stubBackend idRender 0 "m" []
      (by decide) rfl⟩

lemma generateCompletion_closed_iff (B : Backend)
    (render : Option String → String → String) (msgs : List Turn) :
    (generateCompletion B render msgs).closed = true ↔
      (generateCompletion B render msgs).calls = 1 := by
  unfold generateCompletion
  cases msgs with
  | nil => simp
  | cons m tail =>
    by_cases hs : m.speaker = "system"
    · simp only [hs, if_true]
      cases ht : m.text with
      | none => simp
      | some sys =>
        cases tail with
        | nil => simp
        | cons m2 rest =>
          cases hv : m2.value with
          | none => simp [hv]
          | some v =>
            simp only [hv]
            unfold completionCallPart
            cases hc : B.completionCall (render (some sys) v) <;> simp [hc]
    · simp only [hs, if_false]
      cases hv : m.value with
      | none => simp [hv]
      | some v =>
        simp only [hv]
        unfold completionCallPart
        cases hc : B.completionCall (render none v) <;> simp [hc]

/-- C8 amended: `client.close()` is called only in completion mode and
only on the paths that reach the completion request (wrapped in
`try/finally`): a chat-mode unit never closes its client on any exit
path, and a completion-mode unit closes it exactly when the completion
call was issued (apiCalls = 2: the model listing plus the completion
call); the model-listing-failure path and completion-mode crashes before
the request leave it unclosed.  (The original claim is refuted by
`c8_chat_no_close_cex`.) -/
theorem c8_close_iff_completion_call (pool : List String) (B : Backend)
    (render : Option String → String → String) (msgs : List Turn) (idx : Nat) :
    (generateData pool B true render msgs idx).closed = false ∧
    ((generateData pool B false render msgs idx).closed = true ↔
      (generateData pool B false render msgs idx).apiCalls = 2) := by
  unfold generateData
  by_cases hp : pool.isEmpty
  · simp [hp]
  · simp only [hp, if_false, Bool.false_eq_true]
    cases B.listModels with
    | none => simp
    | some l =>
      cases l with
      | nil => simp
      | cons m ms =>
        simp only [if_true, if_false]
        constructor
        · trivial
        · have h := generateCompletion_closed_iff B render msgs
          constructor
          · intro hc
            have : (generateCompletion B render msgs).calls = 1 := h.mp hc
            simp [this]
          · intro hc
            apply h.mpr
            omega
